import Mathlib

/-!
Shallow embedding of the Flask backend for CourseInsight
(src/app.py, src/kt_service.py, src/llm_service.py).

JSON values are modelled by the inductive `Json`; Python dicts are
association lists with unique keys; numbers are rationals.  Flask
request handlers become functions from the parsed request body to a
pair of (response JSON, HTTP status code); the `@require_api_key`
decorator is outside these functions, so each handler models the code
that runs after authentication has succeeded.  Exceptions caught by
the surrounding try/except blocks are modelled by `Option`, with
`none` mapped to the 500-class error response the handler returns.
-/

/-- JSON values, mirroring the Python data handled by the service. -/
inductive Json where
  | null : Json
  | bool : Bool → Json
  | num : ℚ → Json
  | str : String → Json
  | arr : List Json → Json
  | obj : List (String × Json) → Json
deriving Repr

/-- Python truthiness of a JSON value (`if x:`): `None`, `False`, `0`,
the empty string, the empty list and the empty dict are falsy. -/
def Json.truthy : Json → Bool
  | .null => false
  | .bool b => b
  | .num q => decide (q ≠ 0)
  | .str s => !s.isEmpty
  | .arr xs => !xs.isEmpty
  | .obj fs => !fs.isEmpty

/-- `d.get(k)` on a Python dict: the stored value, or `None` when the
key is absent.  The modelled handlers only call it on dicts; on a
non-dict this helper is unreachable and returns `null`. -/
def Json.get (j : Json) (k : String) : Json :=
  match j with
  | .obj fs => (fs.lookup k).getD .null
  | _ => .null

/-- `d.get(k, default)` on a Python dict. -/
def Json.getD (j : Json) (k : String) (d : Json) : Json :=
  match j with
  | .obj fs => (fs.lookup k).getD d
  | _ => d

/-- Key lookup in a JSON object, `none` when the key is absent or the
value is not an object.  Used to state what a response body contains. -/
def Json.lookup (j : Json) (k : String) : Option Json :=
  match j with
  | .obj fs => fs.lookup k
  | _ => none

/-- Python `len` on a JSON value: defined for strings, lists and dicts;
`none` models the `TypeError` raised on the other types. -/
def Json.pyLen : Json → Option Nat
  | .str s => some s.length
  | .arr xs => some xs.length
  | .obj fs => some fs.length
  | _ => none

/-- `trace_student_knowledge` (src/kt_service.py).  The body is a stub:
it returns a fixed knowledge state, reading the inputs only through
`len(responses)` and `len(history)` in the summary string (a `len` on a
non-sequence raises, modelled by `none`).  `content_views` is unused. -/
def trace_student_knowledge (user_id course_id responses history content_views : Json) :
    Option Json :=
  let _ := content_views
  match responses.pyLen, history.pyLen with
  | some nr, some nh =>
    some (.obj [
      ("user_id", user_id),
      ("course_id", course_id),
      ("concepts_mastered", .arr [.str "concept_A", .str "concept_B"]),
      ("concepts_struggling", .arr [.str "concept_C"]),
      ("overall_proficiency_estimate", .num (65/100)),
      ("last_interaction_summary", .str ("Processed " ++ toString nr ++
        " new responses and " ++ toString nh ++ " history items."))])
  | _, _ => none

/-- Python `str()` of an integer-valued or fractional rational.  JSON
integers print as Python ints; the service never renders a non-integer
number (floats are out of scope), so the fractional branch is only a
total-function completion. -/
def pyNumStr (q : ℚ) : String :=
  if q.den = 1 then toString q.num else toString q.num ++ "/" ++ toString q.den

mutual
/-- Python `repr()` of a JSON value, as used by `str()` on containers
(f-string interpolation of lists and dicts). -/
def pyRepr : Json → String
  | .null => "None"
  | .bool true => "True"
  | .bool false => "False"
  | .num q => pyNumStr q
  | .str s => "\x27" ++ s ++ "\x27"
  | .arr xs => "[" ++ String.intercalate ", " (pyReprList xs) ++ "]"
  | .obj fs => "\x7b" ++ String.intercalate ", " (pyReprFields fs) ++ "\x7d"
def pyReprList : List Json → List String
  | [] => []
  | x :: xs => pyRepr x :: pyReprList xs
def pyReprFields : List (String × Json) → List String
  | [] => []
  | (k, v) :: fs => ("\x27" ++ k ++ "\x27: " ++ pyRepr v) :: pyReprFields fs
end

/-- Python `str()` of a JSON value, as applied by f-string interpolation. -/
def pyStr : Json → String
  | .str s => s
  | j => pyRepr j

/-- Python substring membership `sub in s`. -/
def pyInStr (sub s : String) : Bool := decide (sub.data <:+: s.data)

/-- `generate_feedback_with_graphrag_llm` (src/llm_service.py).  The
`prompt` local of the source is dead code (built and discarded) and is
omitted; the returned text is the dummy feedback string.  `course_context`
is only logged. -/
def generate_feedback_with_graphrag_llm
    (attempt_data student_kt_state course_context : Json) : String :=
  let _ := course_context
  let attempt_id := attempt_data.get "attemptid"
  let quiz_name := attempt_data.getD "quizname"
    (.str ("Quiz (ID: " ++ pyStr (attempt_data.get "quizid") ++ ")"))
  let student_firstname := attempt_data.getD "studentfirstname" (.str "Student")
  let new_feedback_start := "Great effort, " ++ pyStr student_firstname ++
    ", on the quiz \x27" ++ pyStr quiz_name ++ "\x27 (attempt " ++ pyStr attempt_id ++ ")!"
  let concepts_mastered := student_kt_state.getD "concepts_mastered" (.arr [])
  let concepts_struggling := student_kt_state.getD "concepts_struggling" (.arr [])
  let feedback_parts := [new_feedback_start]
  let feedback_parts := if concepts_mastered.truthy then
      feedback_parts ++
        ["It seems you\x27re doing well with " ++ pyStr concepts_mastered ++ "."]
    else feedback_parts
  let feedback_parts := if concepts_struggling.truthy then
      feedback_parts ++ ["You might need to review " ++ pyStr concepts_struggling ++ "."]
    else feedback_parts
  let feedback_parts := feedback_parts ++
    ["Consider revisiting relevant materials or practice problems. Keep up the good work!"]
  String.intercalate " " feedback_parts

/-- The 400 response of `generate_feedback` when a required identifier
is falsy (src/app.py line 76). -/
def feedbackMissingFields : Json × Nat :=
  (.obj [("status", .str "error"),
         ("message", .str "Missing required fields: attemptid, userid, or courseid")], 400)

/-- The 500 response produced by the `except` block of
`generate_feedback` (src/app.py line 95). -/
def feedbackInternalError : Json × Nat :=
  (.obj [("status", .str "error"),
         ("message", .str "An internal error occurred while generating feedback.")], 500)

/-- The `/api/generate_feedback` handler (src/app.py lines 60-95),
after `@require_api_key` has accepted the request.  `data` is the
parsed JSON body; the result is the response body paired with the HTTP
status code (`jsonify` without an explicit code returns 200).  A body
that is not a JSON object makes `data.get` raise, which the `except`
block turns into the 500 response. -/
def generate_feedback (data : Json) : Json × Nat :=
  match data with
  | .obj _ =>
    let attempt_id := data.get "attemptid"
    let user_id := data.get "userid"
    let course_id := data.get "courseid"
    let responses := data.getD "responses" (.arr [])
    let history := data.getD "history" (.arr [])
    let content_views := data.getD "contentviews" (.arr [])
    if !(attempt_id.truthy && user_id.truthy && course_id.truthy) then
      feedbackMissingFields
    else
      match trace_student_knowledge user_id course_id responses history content_views with
      | some student_kt_state =>
        let course_context := Json.obj [("course_id", course_id)]
        let feedback_text :=
          generate_feedback_with_graphrag_llm data student_kt_state course_context
        (.obj [("status", .str "success"), ("feedback", .str feedback_text)], 200)
      | none => feedbackInternalError
  | _ => feedbackInternalError

/-- `generate_solution_steps_for_question` (src/llm_service.py).  The
question text must already be a string (non-strings make the handler
500 before any output is produced); `answers` is unused. -/
def generate_solution_steps_for_question
    (question_text : String) (question_type answers : Json) : List String :=
  let _ := answers
  let steps := [
    "Step 1: Understand the question: \x27" ++ question_text.take 30 ++ "...\x27",
    "Step 2: Identify key information and formulas.",
    "Step 3: Apply the method/formula.",
    "Step 4: Calculate the result and verify."]
  match question_type with
  | .str t =>
    if t = "multichoice" then
      steps ++ ["Step 5: Select the correct option from the choices."]
    else steps
  | _ => steps

/-- `classify_bloom_level_for_question` (src/llm_service.py): keyword
heuristic over the lower-cased question text; defaults to level 3. -/
def classify_bloom_level_for_question (question_text : String) (answers : Json) : Nat :=
  let _ := answers
  let lower := question_text.toLower
  if pyInStr "define" lower || pyInStr "list" lower then 1
  else if pyInStr "explain" lower || pyInStr "summarize" lower then 2
  else if pyInStr "calculate" lower || pyInStr "solve" lower || pyInStr "apply" lower then 3
  else 3

/-- `generate_embedding_for_text` (src/llm_service.py): 128 successive
draws of `random.random()`.  The generator is modelled as a stream
`rng` of rationals; the guarantee that `random.random()` lies in
`[0,1)` becomes a hypothesis on `rng` in the theorems.  The text is
only logged. -/
def generate_embedding_for_text (text_content : String) (rng : ℕ → ℚ) : List ℚ :=
  let _ := text_content
  (List.range 128).map rng

/-- `extract_taxonomy_tags_for_text` (src/llm_service.py): substring
checks on the lower-cased text, with a default tag when nothing
matched. -/
def extract_taxonomy_tags_for_text (text_content : String) : List Json :=
  let tags : List Json := []
  let tags := if pyInStr "algebra" text_content.toLower then
      tags ++ [.obj [("name", .str "Algebra"), ("type", .str "topic")]]
    else tags
  let tags := if pyInStr "solving equations" text_content.toLower then
      tags ++ [.obj [("name", .str "Equation Solving"), ("type", .str "skill")]]
    else tags
  if tags.isEmpty then
    tags ++ [.obj [("name", .str "General Knowledge"), ("type", .str "topic")]]
  else tags

/-- The 500 response produced by the `except` block of
`analyze_question` (src/app.py line 135). -/
def analyzeInternalError : Json × Nat :=
  (.obj [("status", .str "error"),
         ("message", .str "An internal error occurred while analyzing the question.")], 500)

/-- The `/api/analyze_question` handler (src/app.py lines 97-135),
after authentication.  `rng` is the random stream consumed by the
embedding.  A question text that is truthy but not a string makes the
service calls raise (slicing or `.lower()` on a non-string), which the
`except` block turns into the 500 response. -/
def analyze_question (data : Json) (rng : ℕ → ℚ) : Json × Nat :=
  match data with
  | .obj _ =>
    match data.getD "question" (.obj []) with
    | .obj qfs =>
      let question_data := Json.obj qfs
      let question_id := question_data.get "id"
      let question_text := question_data.get "text"
      let question_type := question_data.get "type"
      let answers := question_data.get "answers"
      if !(question_id.truthy && question_text.truthy && question_type.truthy) then
        (.obj [("status", .str "error"),
               ("message", .str "Missing required question fields: id, text, or type")], 400)
      else
        match question_text with
        | .str qt =>
          (.obj [
            ("status", .str "success"),
            ("question_id", question_id),
            ("embedding", .arr ((generate_embedding_for_text qt rng).map Json.num)),
            ("cognitive_level", .num (classify_bloom_level_for_question qt answers)),
            ("solution_steps",
              .arr ((generate_solution_steps_for_question qt question_type answers).map Json.str)),
            ("taxonomy", .arr (extract_taxonomy_tags_for_text qt))], 200)
        | _ => analyzeInternalError
    | _ => analyzeInternalError
  | _ => analyzeInternalError

/-! ### Helper lemmas -/

lemma Json.get_eq_of_lookup (fs : List (String × Json)) (k : String) (v : Json)
    (h : Json.lookup (.obj fs) k = some v) : (Json.obj fs).get k = v := by
  simp only [Json.lookup] at h
  simp [Json.get, h]

lemma Json.get_eq_null_of_lookup_none (fs : List (String × Json)) (k : String)
    (h : Json.lookup (.obj fs) k = none) : (Json.obj fs).get k = .null := by
  simp only [Json.lookup] at h
  simp [Json.get, h]

lemma Json.getD_eq_of_lookup (fs : List (String × Json)) (k : String) (v d : Json)
    (h : Json.lookup (.obj fs) k = some v) : (Json.obj fs).getD k d = v := by
  simp only [Json.lookup] at h
  simp [Json.getD, h]

/-- On list-valued inputs the KT stub always succeeds, with this fixed
knowledge state. -/
lemma trace_student_knowledge_arr (u c : Json) (rs hs vs : List Json) :
    trace_student_knowledge u c (.arr rs) (.arr hs) (.arr vs) =
      some (.obj [
        ("user_id", u),
        ("course_id", c),
        ("concepts_mastered", .arr [.str "concept_A", .str "concept_B"]),
        ("concepts_struggling", .arr [.str "concept_C"]),
        ("overall_proficiency_estimate", .num (65/100)),
        ("last_interaction_summary", .str ("Processed " ++ toString rs.length ++
          " new responses and " ++ toString hs.length ++ " history items."))]) := rfl

/-- The taxonomy-tag extraction never returns the empty list. -/
lemma extract_taxonomy_tags_ne_nil (t : String) :
    extract_taxonomy_tags_for_text t ≠ [] := by
  unfold extract_taxonomy_tags_for_text
  cases h1 : pyInStr "algebra" t.toLower <;>
    cases h2 : pyInStr "solving equations" t.toLower <;> simp

/-! ### C2: the concrete scenario of the spec -/

/-- The three correct responses of the spec scenario for student 42 in
course 7, in ascending timestamp order.  (The questions are the ones
tagged with concept "linear_equations"; the tagging itself lives
outside the request payload.) -/
def scenarioResponses : List Json := [
  .obj [("question_id", .num 101), ("correct", .bool true),
        ("timestamp", .str "2024-01-01T10:00:00Z")],
  .obj [("question_id", .num 102), ("correct", .bool true),
        ("timestamp", .str "2024-01-01T10:05:00Z")],
  .obj [("question_id", .num 103), ("correct", .bool true),
        ("timestamp", .str "2024-01-01T10:10:00Z")]]

/-- C2 counterexample: for student 42 in course 7 with the three
correct "linear_equations" responses, the stub KT step reports a state
in which "linear_equations" is NOT mastered and the overall proficiency
estimate is 0.65 < 0.75, refuting the claim at its own concrete input. -/
theorem scenario_claim_fails :
    ∃ st, trace_student_knowledge (.num 42) (.num 7) (.arr scenarioResponses)
        (.arr []) (.arr []) = some st ∧
      (∃ lm, st.lookup "concepts_mastered" = some (.arr lm) ∧
        Json.str "linear_equations" ∉ lm) ∧
      ∃ q, st.lookup "overall_proficiency_estimate" = some (.num q) ∧ q < 3/4 := by
  refine ⟨_, trace_student_knowledge_arr _ _ _ _ _, ⟨_, rfl, ?_⟩, ⟨65/100, rfl, by norm_num⟩⟩
  simp

/-- C2 (amended): the stub ignores the evidence: at the scenario input
the state has the fixed lists `concepts_mastered = ["concept_A",
"concept_B"]` (so "linear_equations" is not a member) and
`overall_proficiency_estimate = 0.65` (below 0.75); processing the
identical three responses a second time yields the same state. -/
theorem scenario_stub_behavior :
    ∃ st, trace_student_knowledge (.num 42) (.num 7) (.arr scenarioResponses)
        (.arr []) (.arr []) = some st ∧
      st.lookup "concepts_mastered" = some (.arr [.str "concept_A", .str "concept_B"]) ∧
      (∃ lm, st.lookup "concepts_mastered" = some (.arr lm) ∧
        Json.str "linear_equations" ∉ lm) ∧
      st.lookup "overall_proficiency_estimate" = some (.num (65/100)) ∧
      trace_student_knowledge (.num 42) (.num 7) (.arr scenarioResponses)
        (.arr []) (.arr []) = some st := by
  refine ⟨_, trace_student_knowledge_arr _ _ _ _ _, rfl, ⟨_, rfl, ?_⟩, rfl,
    trace_student_knowledge_arr _ _ _ _ _⟩
  simp

/-! ### C3: no-evidence exclusion -/

/-- C3 counterexample: with entirely empty inputs no concept has any
evidence, yet "concept_A" is reported as mastered. -/
theorem no_evidence_concept_reported :
    ∃ st, trace_student_knowledge (.num 1) (.num 1) (.arr []) (.arr []) (.arr []) = some st ∧
      ∃ lm, st.lookup "concepts_mastered" = some (.arr lm) ∧ Json.str "concept_A" ∈ lm := by
  exact ⟨_, trace_student_knowledge_arr _ _ _ _ _, _, rfl, by simp⟩

/-- C3 (amended): the reported lists are the hard-coded placeholders,
independent of the evidence; a concept other than "concept_A",
"concept_B" and "concept_C" never appears in either list, and the
overall proficiency estimate is the constant 0.65, so no concept
contributes to it. -/
theorem non_placeholder_concepts_excluded (u c : Json) (rs hs vs : List Json)
    (concept : String) (hA : concept ≠ "concept_A") (hB : concept ≠ "concept_B")
    (hC : concept ≠ "concept_C") :
    ∃ st, trace_student_knowledge u c (.arr rs) (.arr hs) (.arr vs) = some st ∧
      (∃ lm, st.lookup "concepts_mastered" = some (.arr lm) ∧ Json.str concept ∉ lm) ∧
      (∃ ls, st.lookup "concepts_struggling" = some (.arr ls) ∧ Json.str concept ∉ ls) ∧
      st.lookup "overall_proficiency_estimate" = some (.num (65/100)) := by
  refine ⟨_, trace_student_knowledge_arr _ _ _ _ _, ⟨_, rfl, ?_⟩, ⟨_, rfl, ?_⟩, rfl⟩
  · simp [hA, hB]
  · simp [hC]

/-- Witness for C3: the amended exclusion applied to the concrete
concept "linear_equations" with empty evidence. -/
theorem non_placeholder_concepts_excluded_witness :
    ("linear_equations" ≠ "concept_A") ∧
    ∃ st, trace_student_knowledge (.num 42) (.num 7) (.arr []) (.arr []) (.arr []) = some st ∧
      (∃ lm, st.lookup "concepts_mastered" = some (.arr lm) ∧
        Json.str "linear_equations" ∉ lm) ∧
      (∃ ls, st.lookup "concepts_struggling" = some (.arr ls) ∧
        Json.str "linear_equations" ∉ ls) ∧
      st.lookup "overall_proficiency_estimate" = some (.num (65/100)) :=
  ⟨by decide, non_placeholder_concepts_excluded (.num 42) (.num 7) [] [] []
    "linear_equations" (by decide) (by decide) (by decide)⟩

/-! ### C4: idempotence of reprocessing -/

/-- C4: the KT step is a pure, stateless function of its arguments
(the stub keeps no store), so a second call with the same
already-processed inputs reports exactly the mastery state of the
first call. -/
theorem trace_reapply_unchanged (user_id course_id responses history content_views st : Json)
    (hfirst : trace_student_knowledge user_id course_id responses history content_views =
      some st) :
    trace_student_knowledge user_id course_id responses history content_views = some st :=
  hfirst

/-- Witness for C4 at a concrete input. -/
theorem trace_reapply_unchanged_witness :
    trace_student_knowledge (.num 1) (.num 1) (.arr []) (.arr []) (.arr []) =
      some (.obj [
        ("user_id", .num 1),
        ("course_id", .num 1),
        ("concepts_mastered", .arr [.str "concept_A", .str "concept_B"]),
        ("concepts_struggling", .arr [.str "concept_C"]),
        ("overall_proficiency_estimate", .num (65/100)),
        ("last_interaction_summary",
          .str "Processed 0 new responses and 0 history items.")]) :=
  trace_reapply_unchanged (.num 1) (.num 1) (.arr []) (.arr []) (.arr []) _ (by rfl)

/-! ### C5: boundedness of the reported probability -/

/-- C5: for every user, course and sequences of responses, history and
content views, the knowledge state is defined and its overall
proficiency estimate is a number (never null) in the closed interval
[0,1]. -/
theorem overall_proficiency_bounded (u c : Json) (rs hs vs : List Json) :
    ∃ st q, trace_student_knowledge u c (.arr rs) (.arr hs) (.arr vs) = some st ∧
      st.lookup "overall_proficiency_estimate" = some (.num q) ∧
      0 ≤ q ∧ q ≤ 1 := by
  exact ⟨_, 65/100, trace_student_knowledge_arr _ _ _ _ _, rfl, by norm_num, by norm_num⟩

/-! ### C1: shape of the successful feedback response -/

/-- A complete, valid request body for `/api/generate_feedback`. -/
def feedbackRequestFull : Json := .obj [
  ("attemptid", .num 1), ("userid", .num 42), ("courseid", .num 7),
  ("responses", .arr []), ("history", .arr []), ("contentviews", .arr [])]

/-- C1 counterexample: a concrete authenticated request succeeds (HTTP
200, status "success") yet the response body contains no
`knowledge_state` key at all: the handler returns only `status` and
`feedback`. -/
theorem success_response_lacks_knowledge_state :
    (generate_feedback feedbackRequestFull).2 = 200 ∧
    (generate_feedback feedbackRequestFull).1.lookup "status" = some (.str "success") ∧
    (generate_feedback feedbackRequestFull).1.lookup "knowledge_state" = none :=
  ⟨rfl, rfl, rfl⟩

/-- C1 (amended): every successful response of `/api/generate_feedback`
carries status "success" and a feedback string but no `knowledge_state`
object; the knowledge state computed internally by
`trace_student_knowledge` does have the fields `concepts_mastered`,
`concepts_struggling` and `overall_proficiency_estimate` (0.65), but it
is not included in the response body. -/
theorem success_response_shape (data resp : Json)
    (hsucc : generate_feedback data = (resp, 200)) :
    resp.lookup "status" = some (.str "success") ∧
    (∃ s, resp.lookup "feedback" = some (.str s)) ∧
    resp.lookup "knowledge_state" = none ∧
    ∃ st, trace_student_knowledge (data.get "userid") (data.get "courseid")
        (data.getD "responses" (.arr [])) (data.getD "history" (.arr []))
        (data.getD "contentviews" (.arr [])) = some st ∧
      st.lookup "concepts_mastered" = some (.arr [.str "concept_A", .str "concept_B"]) ∧
      st.lookup "concepts_struggling" = some (.arr [.str "concept_C"]) ∧
      st.lookup "overall_proficiency_estimate" = some (.num (65/100)) := by
  cases data with
  | obj fs =>
    rw [generate_feedback] at hsucc
    split at hsucc
    · exact absurd (congrArg Prod.snd hsucc) (by simp [feedbackMissingFields])
    · split at hsucc
      case _ st heq =>
        injection hsucc with h1 h2
        subst h1
        refine ⟨rfl, ⟨_, rfl⟩, rfl, st, heq, ?_⟩
        rw [trace_student_knowledge] at heq
        split at heq
        case _ nr nh hr hh =>
          injection heq with hst
          subst hst
          exact ⟨rfl, rfl, rfl⟩
        case _ => exact absurd heq (by simp)
      case _ => exact absurd (congrArg Prod.snd hsucc) (by simp [feedbackInternalError])
  | null => exact absurd (congrArg Prod.snd hsucc) (by simp [generate_feedback, feedbackInternalError])
  | bool b => exact absurd (congrArg Prod.snd hsucc) (by simp [generate_feedback, feedbackInternalError])
  | num q => exact absurd (congrArg Prod.snd hsucc) (by simp [generate_feedback, feedbackInternalError])
  | str s => exact absurd (congrArg Prod.snd hsucc) (by simp [generate_feedback, feedbackInternalError])
  | arr xs => exact absurd (congrArg Prod.snd hsucc) (by simp [generate_feedback, feedbackInternalError])

/-- Witness for C1 (amended) at the concrete full request. -/
theorem success_response_shape_witness :
    (generate_feedback feedbackRequestFull).1.lookup "status" = some (.str "success") ∧
    (∃ s, (generate_feedback feedbackRequestFull).1.lookup "feedback" = some (.str s)) ∧
    (generate_feedback feedbackRequestFull).1.lookup "knowledge_state" = none ∧
    ∃ st, trace_student_knowledge (feedbackRequestFull.get "userid")
        (feedbackRequestFull.get "courseid")
        (feedbackRequestFull.getD "responses" (.arr []))
        (feedbackRequestFull.getD "history" (.arr []))
        (feedbackRequestFull.getD "contentviews" (.arr [])) = some st ∧
      st.lookup "concepts_mastered" = some (.arr [.str "concept_A", .str "concept_B"]) ∧
      st.lookup "concepts_struggling" = some (.arr [.str "concept_C"]) ∧
      st.lookup "overall_proficiency_estimate" = some (.num (65/100)) :=
  success_response_shape feedbackRequestFull (generate_feedback feedbackRequestFull).1 (by rfl)

/-! ### C6: empty evidence sequences are never an error -/

/-- C6: a request body (a JSON object) with truthy `attemptid`,
`userid` and `courseid` and all three evidence lists present but empty
completes with HTTP 200 and status "success". -/
theorem empty_evidence_success (fs : List (String × Json)) (a u c : Json)
    (ha : Json.lookup (.obj fs) "attemptid" = some a) (hat : a.truthy = true)
    (hu : Json.lookup (.obj fs) "userid" = some u) (hut : u.truthy = true)
    (hc : Json.lookup (.obj fs) "courseid" = some c) (hct : c.truthy = true)
    (hr : Json.lookup (.obj fs) "responses" = some (.arr []))
    (hh : Json.lookup (.obj fs) "history" = some (.arr []))
    (hv : Json.lookup (.obj fs) "contentviews" = some (.arr [])) :
    (generate_feedback (.obj fs)).2 = 200 ∧
    (generate_feedback (.obj fs)).1.lookup "status" = some (.str "success") := by
  have hga := Json.get_eq_of_lookup fs "attemptid" a ha
  have hgu := Json.get_eq_of_lookup fs "userid" u hu
  have hgc := Json.get_eq_of_lookup fs "courseid" c hc
  have hgr := Json.getD_eq_of_lookup fs "responses" (.arr []) (.arr []) hr
  have hgh := Json.getD_eq_of_lookup fs "history" (.arr []) (.arr []) hh
  have hgv := Json.getD_eq_of_lookup fs "contentviews" (.arr []) (.arr []) hv
  rw [generate_feedback, hga, hgu, hgc, hgr, hgh, hgv, hat, hut, hct,
    trace_student_knowledge_arr]
  exact ⟨rfl, rfl⟩

/-- Witness for C6 at a concrete request. -/
theorem empty_evidence_success_witness :
    (generate_feedback (.obj [("attemptid", .num 3), ("userid", .num 42),
      ("courseid", .num 7), ("responses", .arr []), ("history", .arr []),
      ("contentviews", .arr [])])).2 = 200 ∧
    (generate_feedback (.obj [("attemptid", .num 3), ("userid", .num 42),
      ("courseid", .num 7), ("responses", .arr []), ("history", .arr []),
      ("contentviews", .arr [])])).1.lookup "status" = some (.str "success") :=
  empty_evidence_success _ (.num 3) (.num 42) (.num 7)
    (by rfl) (by decide) (by rfl) (by decide) (by rfl) (by decide)
    (by rfl) (by rfl) (by rfl)

/-! ### C7: missing identifiers are rejected before any processing -/

/-- C7: if any of `attemptid`, `userid`, `courseid` is absent from the
request body, the handler returns the 400 error with the
missing-fields message; the response carries no feedback and no
knowledge state, since neither knowledge tracing nor feedback
generation runs on this early-return path. -/
theorem missing_identifier_rejected (fs : List (String × Json))
    (hmiss : Json.lookup (.obj fs) "attemptid" = none ∨
             Json.lookup (.obj fs) "userid" = none ∨
             Json.lookup (.obj fs) "courseid" = none) :
    generate_feedback (.obj fs) = (.obj [("status", .str "error"),
      ("message", .str "Missing required fields: attemptid, userid, or courseid")], 400) ∧
    (generate_feedback (.obj fs)).1.lookup "feedback" = none ∧
    (generate_feedback (.obj fs)).1.lookup "knowledge_state" = none := by
  have hcond : (!((Json.obj fs).get "attemptid").truthy ||
      !((Json.obj fs).get "userid").truthy ||
      !((Json.obj fs).get "courseid").truthy) = true := by
    rcases hmiss with h | h | h <;>
      simp [Json.get_eq_null_of_lookup_none _ _ h, Json.truthy]
  have hmain : generate_feedback (.obj fs) = feedbackMissingFields := by
    rw [generate_feedback, if_pos]
    simp only [Bool.not_and, Bool.or_eq_true] at hcond ⊢
    rcases hcond with (h | h) | h <;> simp [h]
  rw [hmain]
  exact ⟨rfl, rfl, rfl⟩

/-- Witness for C7: courseid absent. -/
theorem missing_identifier_rejected_witness :
    generate_feedback (.obj [("attemptid", .num 3), ("userid", .num 42)]) =
      (.obj [("status", .str "error"),
        ("message", .str "Missing required fields: attemptid, userid, or courseid")], 400) ∧
    (generate_feedback (.obj [("attemptid", .num 3), ("userid", .num 42)])).1.lookup
      "feedback" = none ∧
    (generate_feedback (.obj [("attemptid", .num 3), ("userid", .num 42)])).1.lookup
      "knowledge_state" = none :=
  missing_identifier_rejected _ (.inr (.inr (by rfl)))

/-! ### C8: present-but-falsy identifiers are rejected like missing ones -/

/-- C8: an identifier that is present but falsy (integer 0, empty
string, or null) triggers exactly the same 400 missing-fields error as
an absent one. -/
theorem falsy_identifier_rejected (fs : List (String × Json)) (k : String) (v : Json)
    (hk : k = "attemptid" ∨ k = "userid" ∨ k = "courseid")
    (hv : Json.lookup (.obj fs) k = some v)
    (hfalsy : v = .num 0 ∨ v = .str "" ∨ v = .null) :
    generate_feedback (.obj fs) = (.obj [("status", .str "error"),
      ("message", .str "Missing required fields: attemptid, userid, or courseid")], 400) := by
  have hvt : v.truthy = false := by
    rcases hfalsy with h | h | h <;> subst h <;> decide
  have hget : (Json.obj fs).get k = v := Json.get_eq_of_lookup fs k v hv
  have hmain : generate_feedback (.obj fs) = feedbackMissingFields := by
    rw [generate_feedback, if_pos]
    rcases hk with h | h | h <;> subst h <;> simp [hget, hvt]
  rw [hmain]
  rfl

/-- Witness for C8: attemptid present as the integer 0. -/
theorem falsy_identifier_rejected_witness :
    generate_feedback (.obj [("attemptid", .num 0), ("userid", .num 42),
      ("courseid", .num 7)]) =
      (.obj [("status", .str "error"),
        ("message", .str "Missing required fields: attemptid, userid, or courseid")], 400) :=
  falsy_identifier_rejected _ "attemptid" (.num 0) (.inl rfl) (by rfl) (.inl rfl)

/-! ### C9: taxonomy extraction always yields at least one tag -/

/-- C9: for every input text the taxonomy-tag extraction returns a
non-empty list — when neither keyword matches, exactly the default
General Knowledge tag — and therefore the `taxonomy` field of every
successful `/api/analyze_question` response is a non-empty list. -/
theorem taxonomy_always_nonempty (text : String) (data : Json) (rng : ℕ → ℚ) (resp : Json)
    (hsucc : analyze_question data rng = (resp, 200)) :
    extract_taxonomy_tags_for_text text ≠ [] ∧
    (pyInStr "algebra" text.toLower = false →
      pyInStr "solving equations" text.toLower = false →
      extract_taxonomy_tags_for_text text =
        [.obj [("name", .str "General Knowledge"), ("type", .str "topic")]]) ∧
    ∃ l, resp.lookup "taxonomy" = some (.arr l) ∧ l ≠ [] := by
  refine ⟨extract_taxonomy_tags_ne_nil text, ?_, ?_⟩
  · intro h1 h2
    unfold extract_taxonomy_tags_for_text
    simp [h1, h2]
  · cases data with
    | obj fs =>
      rw [analyze_question] at hsucc
      split at hsucc
      case _ qfs hq =>
        simp only [] at hsucc
        split at hsucc
        · exact absurd (congrArg Prod.snd hsucc) (by simp)
        · split at hsucc
          case _ qt hqt =>
            injection hsucc with h1 h2
            subst h1
            exact ⟨_, rfl, extract_taxonomy_tags_ne_nil qt⟩
          case _ hne => exact absurd (congrArg Prod.snd hsucc) (by simp [analyzeInternalError])
      case _ hq => exact absurd (congrArg Prod.snd hsucc) (by simp [analyzeInternalError])
    | null => exact absurd (congrArg Prod.snd hsucc) (by simp [analyze_question, analyzeInternalError])
    | bool b => exact absurd (congrArg Prod.snd hsucc) (by simp [analyze_question, analyzeInternalError])
    | num q => exact absurd (congrArg Prod.snd hsucc) (by simp [analyze_question, analyzeInternalError])
    | str s => exact absurd (congrArg Prod.snd hsucc) (by simp [analyze_question, analyzeInternalError])
    | arr xs => exact absurd (congrArg Prod.snd hsucc) (by simp [analyze_question, analyzeInternalError])

/-- The zero random stream, a concrete model of the generator. -/
def rngZero : ℕ → ℚ := fun _ => 0

/-- A concrete, valid request body for `/api/analyze_question` whose
question text matches no taxonomy keyword. -/
def questionRequest : Json := .obj [("question", .obj [
  ("id", .num 5),
  ("text", .str "State the Pythagorean theorem."),
  ("type", .str "shortanswer")])]

/-- Witness for C9 at the concrete request. -/
theorem taxonomy_always_nonempty_witness :
    extract_taxonomy_tags_for_text "State the Pythagorean theorem." ≠ [] ∧
    (pyInStr "algebra" "State the Pythagorean theorem.".toLower = false →
      pyInStr "solving equations" "State the Pythagorean theorem.".toLower = false →
      extract_taxonomy_tags_for_text "State the Pythagorean theorem." =
        [.obj [("name", .str "General Knowledge"), ("type", .str "topic")]]) ∧
    ∃ l, ((analyze_question questionRequest rngZero).1).lookup "taxonomy" =
      some (.arr l) ∧ l ≠ [] :=
  taxonomy_always_nonempty "State the Pythagorean theorem." questionRequest rngZero
    (analyze_question questionRequest rngZero).1 (by rfl)

/-! ### C10: shape of the generated embedding -/

/-- C10: under the guarantee that every draw of `random.random()` lies
in [0,1), the embedding is a list of exactly 128 numbers, each in
[0,1); and since the values come from the random stream rather than
the text, two calls with identical text can return different
embeddings. -/
theorem embedding_shape (text : String) (rng : ℕ → ℚ)
    (h : ∀ i, 0 ≤ rng i ∧ rng i < 1) :
    (generate_embedding_for_text text rng).length = 128 ∧
    (∀ x ∈ generate_embedding_for_text text rng, 0 ≤ x ∧ x < 1) ∧
    ∃ r1 r2 : ℕ → ℚ, (∀ i, 0 ≤ r1 i ∧ r1 i < 1) ∧ (∀ i, 0 ≤ r2 i ∧ r2 i < 1) ∧
      generate_embedding_for_text text r1 ≠ generate_embedding_for_text text r2 := by
  refine ⟨by simp [generate_embedding_for_text], ?_, ?_⟩
  · intro x hx
    simp only [generate_embedding_for_text, List.mem_map] at hx
    obtain ⟨i, -, rfl⟩ := hx
    exact h i
  · refine ⟨fun _ => 0, fun _ => 1/2, fun i => by norm_num, fun i => by norm_num, ?_⟩
    intro heq
    have h0 : (generate_embedding_for_text text fun _ => (0:ℚ)).head? = some 0 := by rfl
    rw [heq] at h0
    have h1 : (generate_embedding_for_text text fun _ => (1/2:ℚ)).head? = some (1/2) := by rfl
    rw [h0] at h1
    exact absurd (Option.some.inj h1) (by norm_num)

/-- Witness for C10 with the zero stream. -/
theorem embedding_shape_witness :
    (∀ i, 0 ≤ rngZero i ∧ rngZero i < 1) ∧
    ((generate_embedding_for_text "State the Pythagorean theorem." rngZero).length = 128 ∧
     (∀ x ∈ generate_embedding_for_text "State the Pythagorean theorem." rngZero,
       0 ≤ x ∧ x < 1) ∧
     ∃ r1 r2 : ℕ → ℚ, (∀ i, 0 ≤ r1 i ∧ r1 i < 1) ∧ (∀ i, 0 ≤ r2 i ∧ r2 i < 1) ∧
       generate_embedding_for_text "State the Pythagorean theorem." r1 ≠
         generate_embedding_for_text "State the Pythagorean theorem." r2) :=
  ⟨fun i => by norm_num [rngZero],
   embedding_shape "State the Pythagorean theorem." rngZero
     (fun i => by norm_num [rngZero])⟩
